import Mathlib

/-!
Shallow embedding of the AIoT MQTT bridge core
(`backend/apps/devices/mqtt_worker.py`, `models.py`, `views.py`).

Machine state is the persisted rows (gateways, devices, telemetry);
time is an abstract `Nat` tick passed to every handler as `now`
(mirroring `timezone.now()`).  JSON payloads are association lists of
Python-like values.
-/

namespace AIoT

/-- A JSON-ish payload value as Python sees it (strings, ints, booleans).
Floats only occur in the brightness check where the claim inputs are
integral, so numbers are embedded as `Int`. -/
inductive Value where
  | vStr (s : String)
  | vInt (n : Int)
  | vBool (b : Bool)
deriving DecidableEq, Repr

/-- Python truthiness of a payload value (`if x:`). -/
def Value.truthy : Value → Bool
  | .vStr s => s ≠ ""
  | .vInt n => n ≠ 0
  | .vBool b => b

/-- The string form used when a payload value is fed into a `CharField`
lookup or column (Django coerces to text). -/
def Value.asKey : Value → String
  | .vStr s => s
  | .vInt n => toString n
  | .vBool b => if b then "True" else "False"

/-- Python `==` between payload values (`1 == True`, `0 == False`). -/
def Value.pyEq : Value → Value → Bool
  | .vStr a, .vStr b => a == b
  | .vInt a, .vInt b => a == b
  | .vBool a, .vBool b => a == b
  | .vInt a, .vBool b => a == (if b then 1 else 0)
  | .vBool a, .vInt b => (if a then 1 else 0) == b
  | _, _ => false

/-- Python `float(x)` restricted to the values we embed: ints pass
through, booleans coerce, numeric strings parse, anything else raises
(`none`). -/
def Value.toNumber : Value → Option Int
  | .vInt n => some n
  | .vBool b => some (if b then 1 else 0)
  | .vStr s => s.toInt?

/-- A JSON object: association list, first binding wins (`dict.get`). -/
abbrev Payload := List (String × Value)

/-- Python `payload.get(k)` — `None` when the key is absent. -/
def payloadGet (p : Payload) (k : String) : Option Value :=
  (p.find? (fun kv => kv.1 == k)).map (·.2)

/-- Python `payload.get(k, default)` coerced to the stored text form. -/
def payloadGetD (p : Payload) (k : String) (d : String) : String :=
  match payloadGet p k with
  | some v => v.asKey
  | none => d

/-- Python `str.strip()`: drop leading and trailing whitespace
(char-list based so proofs can evaluate it). -/
def strip (s : String) : String :=
  String.mk (((s.data.dropWhile Char.isWhitespace).reverse.dropWhile Char.isWhitespace).reverse)

/-- Python `topic.split("/")` (char-list based). -/
def topicSplit (t : String) : List String :=
  (t.data.splitOn (Char.ofNat 0x2f)).map fun cs => String.mk cs

/-- Python `str.startswith(pre)` (char-list based). -/
def topicStartsWith (t pre : String) : Bool :=
  pre.data.isPrefixOf t.data

/-- Python `a or b` over two `dict.get` results. -/
def pyOr (a b : Option Value) : Option Value :=
  match a with
  | some v => if v.truthy then some v else b
  | none => b

/-- A `Gateway` row (`models.Gateway`): unique `gateway_id`, owner
account, display name, nullable `last_seen`. `pk` is the database
primary key devices reference. -/
structure Gateway where
  pk : Nat
  gateway_id : String
  ownerId : Nat
  name : String
  last_seen : Option Nat
deriving DecidableEq, Repr

/-- A `Device` row (`models.Device`): unique on
`(gateway, device_id)` (`Meta.unique_together`). -/
structure Device where
  gatewayPk : Nat
  device_id : String
  type : String
  model : String
  name : String
  is_online : Bool
  last_telemetry : Option Nat
  model_definition : Option String
deriving DecidableEq, Repr

/-- The `Device.DEVICE_TYPE_SENSOR` default. -/
def DEVICE_TYPE_SENSOR : String := "sensor"

/-- A `Telemetry` row: device reference, `auto_now_add` timestamp,
raw payload. -/
structure TelemetryRec where
  deviceGatewayPk : Nat
  device_id : String
  timestamp : Nat
  payload : Payload
deriving DecidableEq, Repr

/-- The persisted state the bridge mutates: gateway, device and
telemetry tables plus the `DeviceModelDefinition` registry (only its
`model_id` keys matter to the worker). -/
structure St where
  gateways : List Gateway
  devices : List Device
  telemetry : List TelemetryRec
  modelDefs : List String
deriving DecidableEq, Repr

/-- ORM call `Device.objects.filter(device_id=device_id).first()` — the worker
looks devices up by `device_id` alone. -/
def findDevice (st : St) (deviceId : String) : Option Device :=
  st.devices.find? (fun d => d.device_id == deviceId)

/-- ORM call `Gateway.objects.filter(gateway_id=gateway_id).first()`. -/
def findGateway (st : St) (gatewayId : String) : Option Gateway :=
  st.gateways.find? (fun g => g.gateway_id == gatewayId)

/-- Fetch a gateway row by primary key (the `device.gateway` FK). -/
def findGatewayPk (st : St) (pk : Nat) : Option Gateway :=
  st.gateways.find? (fun g => g.pk == pk)

/-- Fetch a device row by its composite key. -/
def getDevice (st : St) (gwPk : Nat) (deviceId : String) : Option Device :=
  st.devices.find? (fun d => d.gatewayPk == gwPk && d.device_id == deviceId)

/-- ORM call `device.save(...)`: write the in-memory object back over the row(s)
with its composite key. -/
def saveDevice (st : St) (dev : Device) : St :=
  { st with devices :=
      st.devices.map fun d =>
        if d.gatewayPk == dev.gatewayPk && d.device_id == dev.device_id then dev else d }

/-- Model method `Device.update_online_status(is_online)`: set the flag
and stamp `last_telemetry` with now when going online. -/
def updateOnlineStatus (dev : Device) (isOnline : Bool) (now : Nat) : Device :=
  { dev with
      is_online := isOnline
      last_telemetry := if isOnline then some now else dev.last_telemetry }

/-- Model method `Gateway.update_last_seen()`: stamp `last_seen := now` on the row
with the given pk. -/
def gatewayUpdateLastSeen (st : St) (pk : Nat) (now : Nat) : St :=
  { st with gateways :=
      st.gateways.map fun g =>
        if g.pk == pk then { g with last_seen := some now } else g }

/-- Outcome of `_handle_device_heartbeat` (which log line fired). -/
inductive HbOutcome where
  | markedOnline
  | autoCreated
  | unknownGateway
  | noGatewayId
deriving DecidableEq, Repr

/-- The row `Device.objects.create(...)` inserts on auto-registration:
type/model/name from the payload (type defaulting to sensor),
`is_online=True`, everything else at field defaults. -/
def autoCreateDevice (gw : Gateway) (deviceId : String) (p : Payload) : Device :=
  { gatewayPk := gw.pk
    device_id := deviceId
    type := payloadGetD p "type" DEVICE_TYPE_SENSOR
    model := payloadGetD p "model" ""
    name := payloadGetD p "name" ""
    is_online := true
    last_telemetry := none
    model_definition := none }

/-- Worker method `MqttBridge._handle_device_heartbeat`. -/
def handleDeviceHeartbeat (st : St) (now : Nat) (deviceId : String) (p : Payload) :
    St × HbOutcome :=
  match findDevice st deviceId with
  | some dev =>
      let st1 := saveDevice st (updateOnlineStatus dev true now)
      (gatewayUpdateLastSeen st1 dev.gatewayPk now, .markedOnline)
  | none =>
      match payloadGet p "gateway_id" with
      | some gidV =>
          if gidV.truthy then
            match findGateway st gidV.asKey with
            | some gw =>
                let st1 : St := { st with devices := st.devices ++ [autoCreateDevice gw deviceId p] }
                (gatewayUpdateLastSeen st1 gw.pk now, .autoCreated)
            | none => (st, .unknownGateway)
          else (st, .noGatewayId)
      | none => (st, .noGatewayId)

/-- Outcome of `_handle_device_data`. `ok` records whether the
WebSocket fan-out raised (and was caught). -/
inductive DataOutcome where
  | ok (broadcastFailed : Bool)
  | unknownGateway
  | noGatewayId
  | errorCaught
deriving DecidableEq, Repr

/-- The channel-layer `group_send` call: raises exactly when the
fan-out fails (abstracted as the `broadcastFails` oracle). -/
def sendBroadcast (broadcastFails : Bool) : Except String Unit :=
  if broadcastFails then .error "websocket" else .ok ()

/-- The model auto-link step of `_handle_device_data`:
`model_id = payload.get("model_id") or payload.get("model")`, linked
only when truthy, the device has no definition yet, and a matching
`DeviceModelDefinition` exists (`DoesNotExist` is caught). -/
def linkModelDef (st : St) (p : Payload) (dev : Device) : St × Device :=
  match pyOr (payloadGet p "model_id") (payloadGet p "model") with
  | some v =>
      if v.truthy && dev.model_definition == none then
        if v.asKey ∈ st.modelDefs then
          let dev' := { dev with model_definition := some v.asKey }
          (saveDevice st dev', dev')
        else (st, dev)
      else (st, dev)
  | none => (st, dev)

/-- The persistence steps of `_handle_device_data`:
`Telemetry.objects.create(device=device, payload=payload)` followed by
`device.update_online_status(True)`. -/
def dataPersist (st : St) (now : Nat) (deviceId : String) (p : Payload)
    (dev : Device) : St :=
  let st2 : St := { st with telemetry :=
      st.telemetry ++ [⟨dev.gatewayPk, deviceId, now, p⟩] }
  saveDevice st2 (updateOnlineStatus dev true now)

/-- The tail of `_handle_device_data` once a device row is in hand:
opportunistic model-definition link, telemetry insert, online-status
update, then the try/except-guarded fan-out (a raise there is logged,
not re-thrown). -/
def dataRest (st : St) (now : Nat) (deviceId : String) (p : Payload)
    (broadcastFails : Bool) (dev : Device) : Except String (St × DataOutcome) :=
  let linked := linkModelDef st p dev
  let st3 := dataPersist linked.1 now deviceId p linked.2
  match sendBroadcast broadcastFails with
  | .ok _ => .ok (st3, .ok false)
  | .error _ => .ok (st3, .ok true)

/-- Body of `_handle_device_data` inside `transaction.atomic()`: an
uncaught raise aborts the whole unit of work (modelled by `.error`). -/
def handleDeviceDataCore (st : St) (now : Nat) (deviceId : String) (p : Payload)
    (broadcastFails : Bool) : Except String (St × DataOutcome) :=
  match findDevice st deviceId with
  | some dev => dataRest st now deviceId p broadcastFails dev
  | none =>
      match payloadGet p "gateway_id" with
      | some gidV =>
          if gidV.truthy then
            match findGateway st gidV.asKey with
            | some gw =>
                let dev := autoCreateDevice gw deviceId p
                let st1 : St := { st with devices := st.devices ++ [dev] }
                let st2 := gatewayUpdateLastSeen st1 gw.pk now
                dataRest st2 now deviceId p broadcastFails dev
            | none => .ok (st, .unknownGateway)
          else .ok (st, .noGatewayId)
      | none => .ok (st, .noGatewayId)

/-- Worker method `MqttBridge._handle_device_data`: the outer try/except logs any
escaped exception, and the aborted transaction leaves state as it was. -/
def handleDeviceData (st : St) (now : Nat) (deviceId : String) (p : Payload)
    (broadcastFails : Bool) : St × DataOutcome :=
  match handleDeviceDataCore st now deviceId p broadcastFails with
  | .ok r => r
  | .error _ => (st, .errorCaught)

/-- Outcome of `_handle_gateway_status`. -/
inductive GwOutcome where
  | refreshed
  | unknownGateway
deriving DecidableEq, Repr

/-- Worker method `MqttBridge._handle_gateway_status`: refresh `last_seen` when the
gateway exists, otherwise log and ignore. -/
def handleGatewayStatus (st : St) (now : Nat) (gatewayId : String) : St × GwOutcome :=
  match findGateway st gatewayId with
  | some gw => (gatewayUpdateLastSeen st gw.pk now, .refreshed)
  | none => (st, .unknownGateway)

/-- Outcome of a routed message (`on_message` and the two
`_handle_*_message` dispatchers). -/
inductive MsgOutcome where
  | debugAck
  | invalidTopic
  | deviceHeartbeat (o : HbOutcome)
  | deviceData (o : DataOutcome)
  | deviceUnhandledEvent
  | gatewayStatus (o : GwOutcome)
  | gatewayUnhandledEvent
  | unhandledTopic
deriving DecidableEq, Repr

/-- Worker method `MqttBridge._handle_device_message`: dispatch on the event segment
of `devices/{device_id}/{event_type}`. -/
def handleDeviceMessage (st : St) (now : Nat) (parts : List String) (p : Payload)
    (broadcastFails : Bool) : St × MsgOutcome :=
  match parts with
  | _ :: deviceId :: eventType :: _ =>
      if eventType == "heartbeat" then
        let r := handleDeviceHeartbeat st now deviceId p
        (r.1, .deviceHeartbeat r.2)
      else if eventType == "data" then
        let r := handleDeviceData st now deviceId p broadcastFails
        (r.1, .deviceData r.2)
      else (st, .deviceUnhandledEvent)
  | _ => (st, .invalidTopic)

/-- Worker method `MqttBridge._handle_gateway_message`: dispatch on the event segment
of `gateways/{gateway_id}/{event_type}`. -/
def handleGatewayMessage (st : St) (now : Nat) (parts : List String) :
    St × MsgOutcome :=
  match parts with
  | _ :: gatewayId :: eventType :: _ =>
      if eventType == "status" then
        let r := handleGatewayStatus st now gatewayId
        (r.1, .gatewayStatus r.2)
      else (st, .gatewayUnhandledEvent)
  | _ => (st, .invalidTopic)

/-- Worker method `MqttBridge.on_message`: debug topics are acknowledged and
dropped; topics with fewer than three `/`-segments are logged and
dropped; otherwise route by prefix.  The payload has already been
through the JSON-parse-with-raw-fallback step, so it is passed in
as a `Payload`. -/
def onMessage (st : St) (now : Nat) (topic : String) (p : Payload)
    (broadcastFails : Bool) : St × MsgOutcome :=
  if topicStartsWith topic "debug/" then (st, .debugAck)
  else
    let parts := topicSplit topic
    if parts.length < 3 then (st, .invalidTopic)
    else if topicStartsWith topic "devices/" then handleDeviceMessage st now parts p broadcastFails
    else if topicStartsWith topic "gateways/" then handleGatewayMessage st now parts
    else (st, .unhandledTopic)

/-- One inbound broker message: arrival time, topic, parsed payload,
and whether the fan-out would fail while handling it. -/
structure Msg where
  now : Nat
  topic : String
  payload : Payload
  broadcastFails : Bool

/-- The broker delivery loop: every queued message goes through
`on_message`; no outcome ever aborts the loop. -/
def processMessages (st : St) : List Msg → St × List MsgOutcome
  | [] => (st, [])
  | m :: rest =>
      let r := onMessage st m.now m.topic m.payload m.broadcastFails
      let rr := processMessages r.1 rest
      (rr.1, r.2 :: rr.2)

/-! ## Connection retry loop (`MqttBridge.start`) -/

/-- The `self._max_connection_attempts` constant. -/
def maxConnectionAttempts : Nat := 5

/-- The retry sleep: `min(5 * self._connection_attempts, 30)`. -/
def waitTime (attempts : Nat) : Nat := min (5 * attempts) 30

/-- Result of the `start` loop: the sleeps taken between attempts, the
final `_connection_attempts` counter, and `_connected`. -/
structure StartResult where
  waits : List Nat
  attempts : Nat
  connected : Bool
deriving DecidableEq, Repr

/-- The `while self._connection_attempts < self._max_connection_attempts`
loop of `start`, with `succeeds n` the outcome of the nth attempt
(fuel is the remaining allowance, so the loop terminates). -/
def startGo (succeeds : Nat → Bool) : Nat → Nat → StartResult
  | 0, attempts => { waits := [], attempts := attempts, connected := false }
  | fuel + 1, attempts =>
      let attempts' := attempts + 1
      if succeeds attempts' then
        { waits := [], attempts := attempts', connected := true }
      else if attempts' < maxConnectionAttempts then
        let r := startGo succeeds fuel attempts'
        { r with waits := waitTime attempts' :: r.waits }
      else
        { waits := [], attempts := attempts', connected := false }

/-- Worker method `MqttBridge.start`: retry with capped backoff, give up (and report
`_connected = False`) after the maximum number of attempts. -/
def start (succeeds : Nat → Bool) : StartResult :=
  startGo succeeds maxConnectionAttempts 0

/-! ## Telemetry query (`TelemetryViewSet.get_queryset`) -/

/-- Insert a record into a newest-first list, keeping it sorted. -/
def insertDesc (r : TelemetryRec) : List TelemetryRec → List TelemetryRec
  | [] => [r]
  | x :: xs => if r.timestamp ≤ x.timestamp then x :: insertDesc r xs else r :: x :: xs

/-- Query ordering `.order_by` newest-first by timestamp. -/
def sortDesc : List TelemetryRec → List TelemetryRec
  | [] => []
  | x :: xs => insertDesc x (sortDesc xs)

/-- The `since`/`until`/`limit` tail of `get_queryset`: chained
`timestamp__gte` and `timestamp__lte` filters over the newest-first
queryset, then a slice when a positive `limit` parses.  (The
owner/device/type filters are orthogonal and applied to `rows`
upstream.) -/
def telemetryQuery (rows : List TelemetryRec) (since untl : Option Nat)
    (limitParam : Option Int) : List TelemetryRec :=
  let qs := sortDesc rows
  let qs := match since with
    | some s => qs.filter (fun r => s ≤ r.timestamp)
    | none => qs
  let qs := match untl with
    | some u => qs.filter (fun r => r.timestamp ≤ u)
    | none => qs
  match limitParam with
  | some l => if 0 < l then qs.take l.toNat else qs
  | none => qs

/-! ## Gateway claim (`GatewayViewSet.claim`) -/

/-- HTTP outcome of the claim endpoint. -/
inductive ClaimResponse where
  | badRequest (msg : String)
  | conflict
  | okExisting
  | created
deriving DecidableEq, Repr

/-- Primary key for a freshly inserted gateway row. -/
def freshGatewayPk (st : St) : Nat :=
  (st.gateways.map (·.pk)).foldr max 0 + 1

/-- View action `GatewayViewSet.claim`: validate `gateway_id`, `get_or_create` by
it, reject with 409 when the existing row belongs to someone else,
otherwise optionally rename. -/
def claimGateway (st : St) (userId : Nat) (gatewayIdParam : Option String)
    (name : String) : St × ClaimResponse :=
  match gatewayIdParam with
  | none => (st, .badRequest "gateway_id is required")
  | some gid =>
      if gid == "" then (st, .badRequest "gateway_id is required")
      else if (strip gid).length == 0 || gid.length > 64 then
        (st, .badRequest "gateway_id must be 1-64 characters")
      else
        match findGateway st (strip gid) with
        | some gw =>
            if gw.ownerId ≠ userId then (st, .conflict)
            else if strip name ≠ "" && gw.name ≠ strip name then
              let gws := st.gateways.map (fun g =>
                if g.pk == gw.pk then { g with name := strip name } else g)
              let st' : St := { st with gateways := gws }
              (st', .okExisting)
            else (st, .okExisting)
        | none =>
            let gw : Gateway :=
              { pk := freshGatewayPk st, gateway_id := strip gid, ownerId := userId
                name := strip name, last_seen := none }
            ({ st with gateways := st.gateways ++ [gw] }, .created)

/-! ## Command dispatch (`DeviceViewSet.command` / `_validate_command`) -/

/-- Model method `Device.can_receive_commands()`. -/
def canReceiveCommands (ty : String) : Bool :=
  ty == "actuator" || ty == "camera" || ty == "relay" || ty == "dimmer" || ty == "switch"

/-- Python membership test
`payload['state'] in [True, False, 'on', 'off', 1, 0]` (under `==`). -/
def stateAllowed (v : Value) : Bool :=
  [Value.vBool true, Value.vBool false, Value.vStr "on", Value.vStr "off",
   Value.vInt 1, Value.vInt 0].any (fun w => v.pyEq w)

/-- View helper `DeviceViewSet._validate_command`: the chained per-type checks;
`none` means the command is valid. -/
def validateCommand (deviceType : String) (commandType : String) (p : Payload) :
    Option String :=
  if (deviceType == "relay" || deviceType == "switch") && commandType == "toggle" then
    match payloadGet p "state" with
    | none => some "State required for toggle command"
    | some v => if stateAllowed v then none else some "State must be boolean or 'on'/'off'"
  else if (deviceType == "dimmer" || deviceType == "light") && commandType == "set_brightness" then
    let b := (payloadGet p "brightness").getD (Value.vInt (-1))
    match b.toNumber with
    | some n => if 0 ≤ n && n ≤ 100 then none else some "Brightness must be between 0-100"
    | none => some "Brightness must be a number"
  else if deviceType == "camera" then
    if commandType ∈ ["start_recording", "stop_recording", "take_snapshot", "set_quality"] then
      if commandType == "set_quality" then
        let q := payloadGetD p "quality" ""
        if q ∈ ["low", "medium", "high"] then none
        else some "Quality must be low, medium, or high"
      else none
    else some "Invalid camera command"
  else none

/-- HTTP outcome of the command endpoint. -/
inductive CmdResponse where
  | cannotReceive
  | validationError (err : String)
  | sent (topic : String)
  | unavailable
deriving DecidableEq, Repr

/-- View action `DeviceViewSet.command`: capability check, validation, then the
MQTT publish (which happens iff the bridge is available).  The second
component records whether a publish occurred. -/
def commandEndpoint (dev : Device) (p : Payload) (mqttAvailable : Bool) :
    CmdResponse × Bool :=
  let commandType := payloadGetD p "action" "unknown"
  if !canReceiveCommands dev.type then (.cannotReceive, false)
  else
    match validateCommand dev.type commandType p with
    | some err => (.validationError err, false)
    | none =>
        if mqttAvailable then (.sent ("devices/" ++ dev.device_id ++ "/commands"), true)
        else (.unavailable, false)

/-! ## Concrete fixtures used by witnesses and counterexamples -/

def wGw : Gateway := ⟨1, "gw-1", 7, "Home", some 0⟩

def wDev : Device := ⟨1, "d1", "sensor", "", "", false, none, none⟩

def wSt0 : St := ⟨[wGw], [], [], []⟩

def wSt1 : St := ⟨[wGw], [wDev], [], []⟩

def wHb : Payload := [("gateway_id", .vStr "gw-1"), ("name", .vStr "Temp")]

/-- The record used for the C2 counterexample. -/
def wRec : TelemetryRec := ⟨1, "d1", 5, []⟩

/-! ## List-level helper lemmas about the row updates -/

theorem find?_append_of_none {α} (q : α → Bool) {l₁ : List α} (l₂ : List α)
    (h : l₁.find? q = none) : (l₁ ++ l₂).find? q = l₂.find? q := by
  induction l₁ with
  | nil => simp
  | cons hd tl ih =>
      rw [List.find?_cons] at h
      cases hq : q hd with
      | true => simp [hq] at h
      | false =>
          simp only [hq] at h
          simpa [List.find?_cons, hq] using ih h

/-- Generic shape of a row save: map the table with
`if key x then new else x`.  When `a` was the first row matching `idq`
and key-matching implies `idq`-matching, the saved object becomes the
first row matching `idq` and also the first matching `pairq`. -/
theorem find?_map_ite {α} (idq pairq key : α → Bool) (new : α) (l : List α) (a : α)
    (h : l.find? idq = some a)
    (hidnew : idq new = true) (hpairnew : pairq new = true)
    (hkeya : key a = true)
    (hkey_imp : ∀ x, key x = true → idq x = true)
    (hpair_imp : ∀ x, pairq x = true → idq x = true) :
    ((l.map fun x => if key x then new else x).find? idq = some new) ∧
    ((l.map fun x => if key x then new else x).find? pairq = some new) := by
  induction l with
  | nil => simp at h
  | cons hd tl ih =>
      by_cases hq : idq hd = true
      · have ha : a = hd := by
          rw [List.find?_cons_of_pos _ hq] at h
          exact (Option.some_inj.mp h).symm
        have hk : key hd = true := by rw [← ha]; exact hkeya
        refine ⟨?_, ?_⟩ <;> rw [List.map_cons, if_pos hk]
        · exact List.find?_cons_of_pos _ hidnew
        · exact List.find?_cons_of_pos _ hpairnew
      · have h' : tl.find? idq = some a := by
          rwa [List.find?_cons_of_neg _ hq] at h
        have hk : ¬ key hd = true := fun hkk => hq (hkey_imp hd hkk)
        have hp : ¬ pairq hd = true := fun hpp => hq (hpair_imp hd hpp)
        obtain ⟨ih1, ih2⟩ := ih h'
        refine ⟨?_, ?_⟩ <;> rw [List.map_cons, if_neg hk]
        · rw [List.find?_cons_of_neg _ hq]
          exact ih1
        · rw [List.find?_cons_of_neg _ hp]
          exact ih2

/-- Generic shape of a single-field refresh: map the table with
`if q x then f x else x` where `f` preserves `q`.  The first `q`-row
comes back refreshed. -/
theorem find?_map_ite_fn {α} (q : α → Bool) (f : α → α) (l : List α) (a : α)
    (h : l.find? q = some a) (hf : ∀ x, q x = true → q (f x) = true) :
    (l.map fun x => if q x then f x else x).find? q = some (f a) := by
  induction l with
  | nil => simp at h
  | cons hd tl ih =>
      by_cases hq : q hd = true
      · have ha : a = hd := by
          rw [List.find?_cons_of_pos _ hq] at h
          exact (Option.some_inj.mp h).symm
        rw [List.map_cons, if_pos hq, List.find?_cons_of_pos _ (hf hd hq), ha]
      · have h' : tl.find? q = some a := by
          rwa [List.find?_cons_of_neg _ hq] at h
        rw [List.map_cons, if_neg hq, List.find?_cons_of_neg _ hq]
        exact ih h'

/-- A row save never changes how many rows satisfy `r`, provided the
saved object satisfies `r` exactly when the rows it replaces do. -/
theorem countP_map_ite {α} (r key : α → Bool) (new : α) (l : List α)
    (hr : ∀ x, key x = true → r x = r new) :
    (l.map fun x => if key x then new else x).countP r = l.countP r := by
  induction l with
  | nil => simp
  | cons hd tl ih =>
      by_cases hk : key hd = true
      · rw [List.map_cons, if_pos hk, List.countP_cons, List.countP_cons, ih, hr hd hk]
      · rw [List.map_cons, if_neg hk, List.countP_cons, List.countP_cons, ih]

/-- A mapped save where no row matches the save key is the identity. -/
theorem map_ite_of_none {α} (key : α → Bool) (new : α) (l : List α)
    (h : ∀ x ∈ l, ¬ key x = true) :
    (l.map fun x => if key x then new else x) = l := by
  induction l with
  | nil => rfl
  | cons hd tl ih =>
      rw [List.map_cons, if_neg (h hd (List.mem_cons_self hd tl)),
        ih (fun x hx => h x (List.mem_cons_of_mem hd hx))]

/-! ## State-level corollaries -/

theorem saveDevice_gateways (st : St) (dev : Device) :
    (saveDevice st dev).gateways = st.gateways := rfl

theorem saveDevice_telemetry (st : St) (dev : Device) :
    (saveDevice st dev).telemetry = st.telemetry := rfl

theorem gatewayUpdateLastSeen_devices (st : St) (pk now : Nat) :
    (gatewayUpdateLastSeen st pk now).devices = st.devices := rfl

theorem gatewayUpdateLastSeen_telemetry (st : St) (pk now : Nat) :
    (gatewayUpdateLastSeen st pk now).telemetry = st.telemetry := rfl

/-- After a save keyed like the row previously found by `device_id`,
that saved object is what both lookups return. -/
theorem findDevice_saveDevice (st : St) (d : String) (dev dev' : Device)
    (h : findDevice st d = some dev)
    (hpk : dev'.gatewayPk = dev.gatewayPk) (hid : dev'.device_id = d) :
    findDevice (saveDevice st dev') d = some dev' ∧
    getDevice (saveDevice st dev') dev'.gatewayPk d = some dev' := by
  have hdid : dev.device_id = d := by
    have hp := List.find?_some h
    simpa using hp
  have h' : st.devices.find? (fun x => x.device_id == d) = some dev := h
  exact find?_map_ite (fun x => x.device_id == d)
    (fun x => x.gatewayPk == dev'.gatewayPk && x.device_id == d)
    (fun x => x.gatewayPk == dev'.gatewayPk && x.device_id == dev'.device_id)
    dev' st.devices dev h' (by simp [hid]) (by simp [hid])
    (by simp [hdid, hid, hpk])
    (fun x hx => by
      simp only [Bool.and_eq_true, beq_iff_eq] at hx
      simp [hx.2, hid])
    (fun x hx => by
      simp only [Bool.and_eq_true, beq_iff_eq] at hx
      simp [hx.2])

/-- Saving a device back does not change the number of rows with its
`device_id`. -/
theorem countP_saveDevice (st : St) (d : String) (dev' : Device) (hid : dev'.device_id = d) :
    (saveDevice st dev').devices.countP (fun x => x.device_id == d) =
      st.devices.countP (fun x => x.device_id == d) :=
  countP_map_ite _ _ dev' st.devices (fun x hx => by
    simp only [Bool.and_eq_true, beq_iff_eq] at hx
    simp [hx.2])

/-- Refreshing `last_seen` returns the refreshed row on pk lookup. -/
theorem findGatewayPk_update (st : St) (pk now : Nat) (gw : Gateway)
    (h : findGatewayPk st pk = some gw) :
    findGatewayPk (gatewayUpdateLastSeen st pk now) pk =
      some { gw with last_seen := some now } := by
  have h' : st.gateways.find? (fun g => g.pk == pk) = some gw := h
  exact find?_map_ite_fn (fun g => g.pk == pk) (fun g => { g with last_seen := some now })
    st.gateways gw h' (fun x hx => by simpa using hx)

/-- When no row matches `device_id`, the auto-created row is what both
lookups return after the append. -/
theorem findDevice_append (st : St) (d : String) (dev : Device)
    (h : findDevice st d = none) (hid : dev.device_id = d) :
    findDevice { st with devices := st.devices ++ [dev] } d = some dev ∧
    getDevice { st with devices := st.devices ++ [dev] } dev.gatewayPk d = some dev := by
  have hall : ∀ x ∈ st.devices, ¬ ((fun x => x.device_id == d) x = true) :=
    List.find?_eq_none.mp h
  constructor
  · show (st.devices ++ [dev]).find? (fun x => x.device_id == d) = some dev
    rw [find?_append_of_none _ _ h]
    exact List.find?_cons_of_pos _ (by simp [hid])
  · show (st.devices ++ [dev]).find?
        (fun x => x.gatewayPk == dev.gatewayPk && x.device_id == d) = some dev
    have hnone : st.devices.find?
        (fun x => x.gatewayPk == dev.gatewayPk && x.device_id == d) = none := by
      rw [List.find?_eq_none]
      intro x hx
      have := hall x hx
      simp only [Bool.and_eq_true, beq_iff_eq]
      intro hc
      exact this (by simp [hc.2])
    rw [find?_append_of_none _ _ hnone]
    exact List.find?_cons_of_pos _ (by simp [hid])

/-! ## Handler-level lemmas -/

theorem linkModelDef_spec (st : St) (p : Payload) (d : String) (dev : Device)
    (h : findDevice st d = some dev) :
    (linkModelDef st p dev).2.gatewayPk = dev.gatewayPk ∧
    (linkModelDef st p dev).2.device_id = dev.device_id ∧
    (linkModelDef st p dev).1.gateways = st.gateways ∧
    (linkModelDef st p dev).1.telemetry = st.telemetry ∧
    findDevice (linkModelDef st p dev).1 d = some (linkModelDef st p dev).2 ∧
    (linkModelDef st p dev).1.devices.countP (fun x => x.device_id == d) =
      st.devices.countP (fun x => x.device_id == d) := by
  have hdid : dev.device_id = d := by simpa using List.find?_some h
  unfold linkModelDef
  cases pyOr (payloadGet p "model_id") (payloadGet p "model") with
  | none => exact ⟨rfl, rfl, rfl, rfl, h, rfl⟩
  | some v =>
      dsimp only
      by_cases h1 : (v.truthy && dev.model_definition == none) = true
      · by_cases h2 : v.asKey ∈ st.modelDefs
        · rw [if_pos h1, if_pos h2]
          refine ⟨rfl, rfl, rfl, rfl, ?_, ?_⟩
          · exact (findDevice_saveDevice st d dev
              { dev with model_definition := some v.asKey } h rfl hdid).1
          · exact countP_saveDevice st d { dev with model_definition := some v.asKey } hdid
        · rw [if_pos h1, if_neg h2]
          exact ⟨rfl, rfl, rfl, rfl, h, rfl⟩
      · rw [if_neg h1]
        exact ⟨rfl, rfl, rfl, rfl, h, rfl⟩

theorem dataPersist_spec (st : St) (now : Nat) (d : String) (p : Payload) (dev : Device)
    (h : findDevice st d = some dev) :
    (dataPersist st now d p dev).gateways = st.gateways ∧
    (dataPersist st now d p dev).telemetry = st.telemetry ++ [⟨dev.gatewayPk, d, now, p⟩] ∧
    getDevice (dataPersist st now d p dev) dev.gatewayPk d =
      some (updateOnlineStatus dev true now) ∧
    (dataPersist st now d p dev).devices.countP (fun x => x.device_id == d) =
      st.devices.countP (fun x => x.device_id == d) := by
  have hdid : dev.device_id = d := by simpa using List.find?_some h
  have h2 : findDevice { st with telemetry :=
      st.telemetry ++ [⟨dev.gatewayPk, d, now, p⟩] } d = some dev := h
  refine ⟨rfl, rfl, ?_, ?_⟩
  · exact (findDevice_saveDevice _ d dev (updateOnlineStatus dev true now) h2 rfl hdid).2
  · exact countP_saveDevice _ d _ hdid

theorem dataRest_ok (st : St) (now : Nat) (d : String) (p : Payload) (b : Bool)
    (dev : Device) :
    dataRest st now d p b dev =
      .ok (dataPersist (linkModelDef st p dev).1 now d p (linkModelDef st p dev).2, .ok b) := by
  cases b <;> rfl

/-- Full postcondition of the shared data-event tail: one state for
either fan-out outcome, telemetry appended, device online, no row
added or removed, gateways untouched. -/
theorem dataRest_spec (st : St) (now : Nat) (d : String) (p : Payload) (dev : Device)
    (h : findDevice st d = some dev) :
    ∃ X : St,
      (∀ b, dataRest st now d p b dev = .ok (X, .ok b)) ∧
      X.gateways = st.gateways ∧
      X.telemetry = st.telemetry ++ [⟨dev.gatewayPk, d, now, p⟩] ∧
      (∃ dv, getDevice X dev.gatewayPk d = some dv ∧ dv.is_online = true ∧
        dv.last_telemetry = some now) ∧
      X.devices.countP (fun x => x.device_id == d) =
        st.devices.countP (fun x => x.device_id == d) := by
  obtain ⟨hLpk, hLid, hLgw, hLtel, hLfind, hLcount⟩ := linkModelDef_spec st p d dev h
  obtain ⟨hPgw, hPtel, hPget, hPcount⟩ :=
    dataPersist_spec (linkModelDef st p dev).1 now d p (linkModelDef st p dev).2 hLfind
  refine ⟨dataPersist (linkModelDef st p dev).1 now d p (linkModelDef st p dev).2,
    fun b => dataRest_ok st now d p b dev, ?_, ?_, ?_, ?_⟩
  · rw [hPgw, hLgw]
  · rw [hPtel, hLtel, hLpk]
  · refine ⟨updateOnlineStatus (linkModelDef st p dev).2 true now, ?_, rfl, rfl⟩
    rw [← hLpk]
    exact hPget
  · rw [hPcount, hLcount]

/-! ## Claim theorems -/

/-- C5: heartbeat handling.  (a) An existing device is marked online
and its owning gateway's `last_seen` is stamped with now.  (b) An
unknown device whose payload `gateway_id` resolves is auto-created
online with type/model/name from the payload (type defaulting to
sensor) and that gateway's `last_seen` is stamped.  (c) With no
resolvable gateway the event is dropped: state unchanged, only a
warning outcome. -/
theorem heartbeat_handling (st : St) (now : Nat) (d : String) (p : Payload) :
    (∀ dev gw0, findDevice st d = some dev → findGatewayPk st dev.gatewayPk = some gw0 →
      (handleDeviceHeartbeat st now d p).2 = .markedOnline ∧
      (∃ dv, getDevice (handleDeviceHeartbeat st now d p).1 dev.gatewayPk d = some dv ∧
        dv.is_online = true) ∧
      findGatewayPk (handleDeviceHeartbeat st now d p).1 dev.gatewayPk =
        some { gw0 with last_seen := some now } ∧
      (handleDeviceHeartbeat st now d p).1.devices.length = st.devices.length ∧
      (handleDeviceHeartbeat st now d p).1.telemetry = st.telemetry) ∧
    (∀ gv gw, findDevice st d = none → payloadGet p "gateway_id" = some gv →
      gv.truthy = true → findGateway st gv.asKey = some gw →
      (handleDeviceHeartbeat st now d p).2 = .autoCreated ∧
      getDevice (handleDeviceHeartbeat st now d p).1 gw.pk d =
        some (autoCreateDevice gw d p) ∧
      (autoCreateDevice gw d p).is_online = true ∧
      (autoCreateDevice gw d p).type = payloadGetD p "type" DEVICE_TYPE_SENSOR ∧
      (∀ gw0, findGatewayPk st gw.pk = some gw0 →
        findGatewayPk (handleDeviceHeartbeat st now d p).1 gw.pk =
          some { gw0 with last_seen := some now })) ∧
    (findDevice st d = none → payloadGet p "gateway_id" = none →
      handleDeviceHeartbeat st now d p = (st, .noGatewayId)) ∧
    (∀ gv, findDevice st d = none → payloadGet p "gateway_id" = some gv →
      gv.truthy = false → handleDeviceHeartbeat st now d p = (st, .noGatewayId)) ∧
    (∀ gv, findDevice st d = none → payloadGet p "gateway_id" = some gv →
      gv.truthy = true → findGateway st gv.asKey = none →
      handleDeviceHeartbeat st now d p = (st, .unknownGateway)) := by
  refine ⟨?_, ?_, ?_, ?_, ?_⟩
  · intro dev gw0 h hgw
    have hdid : dev.device_id = d := by simpa using List.find?_some h
    simp only [handleDeviceHeartbeat, h]
    refine ⟨by trivial, ?_, ?_, ?_, by trivial⟩
    · exact ⟨updateOnlineStatus dev true now,
        (findDevice_saveDevice st d dev (updateOnlineStatus dev true now) h rfl hdid).2, rfl⟩
    · exact findGatewayPk_update (saveDevice st (updateOnlineStatus dev true now))
        dev.gatewayPk now gw0 hgw
    · show (st.devices.map _).length = st.devices.length
      exact List.length_map _ _
  · intro gv gw h hg htr hfg
    simp only [handleDeviceHeartbeat, h, hg, htr, if_true, hfg]
    refine ⟨by trivial, ?_, by trivial, by trivial, ?_⟩
    · exact (findDevice_append st d (autoCreateDevice gw d p) h rfl).2
    · intro gw0 hgw0
      exact findGatewayPk_update
        { st with devices := st.devices ++ [autoCreateDevice gw d p] } gw.pk now gw0 hgw0
  · intro h hg
    simp only [handleDeviceHeartbeat, h, hg]
  · intro gv h hg htr
    simp only [handleDeviceHeartbeat, h, hg, htr, Bool.false_eq_true, if_false]
  · intro gv h hg htr hfg
    simp only [handleDeviceHeartbeat, h, hg, htr, if_true, hfg]

/-- C5 witness: the existing-device and auto-create branches at
concrete states. -/
theorem heartbeat_handling_witness :
    ((handleDeviceHeartbeat wSt1 10 "d1" []).2 = .markedOnline ∧
      findGatewayPk (handleDeviceHeartbeat wSt1 10 "d1" []).1 1 =
        some { wGw with last_seen := some 10 }) ∧
    ((handleDeviceHeartbeat wSt0 10 "d1" wHb).2 = .autoCreated ∧
      getDevice (handleDeviceHeartbeat wSt0 10 "d1" wHb).1 1 "d1" =
        some (autoCreateDevice wGw "d1" wHb)) := by
  have h1 := (heartbeat_handling wSt1 10 "d1" []).1 wDev wGw (by decide) (by decide)
  have h2 := (heartbeat_handling wSt0 10 "d1" wHb).2.1 (.vStr "gw-1") wGw
    (by decide) (by decide) (by decide) (by decide)
  exact ⟨⟨h1.1, h1.2.2.1⟩, ⟨h2.1, h2.2.1⟩⟩

/-- C10: a heartbeat for an existing device stamps `last_telemetry`
with the current time even though no telemetry record is created —
`update_online_status(True)` sets it on any online-marking path. -/
theorem heartbeat_stamps_last_telemetry (st : St) (now : Nat) (d : String) (p : Payload)
    (dev : Device) (h : findDevice st d = some dev) :
    (∃ dv, getDevice (handleDeviceHeartbeat st now d p).1 dev.gatewayPk d = some dv ∧
      dv.last_telemetry = some now ∧ dv.is_online = true) ∧
    (handleDeviceHeartbeat st now d p).1.telemetry = st.telemetry := by
  have hdid : dev.device_id = d := by simpa using List.find?_some h
  simp only [handleDeviceHeartbeat, h]
  exact ⟨⟨updateOnlineStatus dev true now,
    (findDevice_saveDevice st d dev (updateOnlineStatus dev true now) h rfl hdid).2,
    rfl, rfl⟩, rfl⟩

/-- C10 witness. -/
theorem heartbeat_stamps_last_telemetry_witness :
    (∃ dv, getDevice (handleDeviceHeartbeat wSt1 10 "d1" []).1 1 "d1" = some dv ∧
      dv.last_telemetry = some 10 ∧ dv.is_online = true) ∧
    (handleDeviceHeartbeat wSt1 10 "d1" []).1.telemetry = wSt1.telemetry :=
  heartbeat_stamps_last_telemetry wSt1 10 "d1" [] wDev (by decide)

/-- C1: auto-create converges — two heartbeats for the same unknown
`(gateway_id, device_id)` pair (gateway resolvable) leave exactly one
device row keyed by that pair, the second event observes the existing
row (no create, no error), and the device ends up online. -/
theorem heartbeat_autocreate_idempotent (st : St) (now1 now2 : Nat) (d : String)
    (p : Payload) (gv : Value) (gw : Gateway)
    (h0 : findDevice st d = none) (hg : payloadGet p "gateway_id" = some gv)
    (htr : gv.truthy = true) (hfg : findGateway st gv.asKey = some gw) :
    (handleDeviceHeartbeat st now1 d p).2 = .autoCreated ∧
    (handleDeviceHeartbeat (handleDeviceHeartbeat st now1 d p).1 now2 d p).2 =
      .markedOnline ∧
    (handleDeviceHeartbeat (handleDeviceHeartbeat st now1 d p).1 now2 d p).1.devices.countP
      (fun x => x.device_id == d) = 1 ∧
    (∃ dv, getDevice
        (handleDeviceHeartbeat (handleDeviceHeartbeat st now1 d p).1 now2 d p).1 gw.pk d =
      some dv ∧ dv.is_online = true) := by
  have hcount0 : st.devices.countP (fun x => x.device_id == d) = 0 :=
    List.countP_eq_zero.mpr (List.find?_eq_none.mp h0)
  simp only [handleDeviceHeartbeat, h0, hg, htr, if_true, hfg]
  have hfind1 : findDevice
      (gatewayUpdateLastSeen { st with devices := st.devices ++ [autoCreateDevice gw d p] }
        gw.pk now1) d = some (autoCreateDevice gw d p) :=
    (findDevice_append st d (autoCreateDevice gw d p) h0 rfl).1
  simp only [hfind1]
  refine ⟨by trivial, by trivial, ?_, ?_⟩
  · have hsave := countP_saveDevice
      (gatewayUpdateLastSeen { st with devices := st.devices ++ [autoCreateDevice gw d p] }
        gw.pk now1) d
      (updateOnlineStatus (autoCreateDevice gw d p) true now2) rfl
    show (saveDevice _ _).devices.countP _ = 1
    rw [hsave]
    show (st.devices ++ [autoCreateDevice gw d p]).countP (fun x => x.device_id == d) = 1
    rw [List.countP_append, hcount0]
    simp [autoCreateDevice]
  · exact ⟨updateOnlineStatus (autoCreateDevice gw d p) true now2,
      (findDevice_saveDevice _ d (autoCreateDevice gw d p)
        (updateOnlineStatus (autoCreateDevice gw d p) true now2) hfind1 rfl rfl).2, rfl⟩

/-- C1 witness: two heartbeats for an unknown device at a known
gateway, at a concrete state. -/
theorem heartbeat_autocreate_idempotent_witness :
    (handleDeviceHeartbeat wSt0 10 "d1" wHb).2 = .autoCreated ∧
    (handleDeviceHeartbeat (handleDeviceHeartbeat wSt0 10 "d1" wHb).1 20 "d1" wHb).2 =
      .markedOnline ∧
    (handleDeviceHeartbeat
        (handleDeviceHeartbeat wSt0 10 "d1" wHb).1 20 "d1" wHb).1.devices.countP
      (fun x => x.device_id == "d1") = 1 ∧
    (∃ dv, getDevice
        (handleDeviceHeartbeat (handleDeviceHeartbeat wSt0 10 "d1" wHb).1 20 "d1" wHb).1
        1 "d1" = some dv ∧ dv.is_online = true) :=
  heartbeat_autocreate_idempotent wSt0 10 20 "d1" wHb (.vStr "gw-1") wGw
    (by decide) (by decide) (by decide) (by decide)

/-- C3 counterexample: processing a `data` event for a pre-existing
device leaves the owning gateway's `last_seen` untouched (here
`some 0`, while the event time is 10), even though the event was
fully processed — refuting "its owning gateway's last_seen [is] set
to the event's processing time, regardless of prior state". -/
theorem data_event_gateway_last_seen_stale :
    (handleDeviceData wSt1 10 "d1" [] false).2 = .ok false ∧
    findGatewayPk (handleDeviceData wSt1 10 "d1" [] false).1 1 = some wGw ∧
    wGw.last_seen = some 0 ∧ (some 0 : Option Nat) ≠ some 10 := by decide

/-- C3 amended: after a `data` event, the device (pre-existing or
auto-created) is online with `last_telemetry` equal to the event time
regardless of prior state, and the telemetry row is persisted; the
owning gateway's `last_seen` is stamped only on the auto-create path —
for a pre-existing device the gateway table is left unchanged. -/
theorem data_event_liveness (st : St) (now : Nat) (d : String) (p : Payload) (bf : Bool) :
    (∀ dev, findDevice st d = some dev →
      (handleDeviceData st now d p bf).2 = .ok bf ∧
      (∃ dv, getDevice (handleDeviceData st now d p bf).1 dev.gatewayPk d = some dv ∧
        dv.is_online = true ∧ dv.last_telemetry = some now) ∧
      (handleDeviceData st now d p bf).1.telemetry =
        st.telemetry ++ [⟨dev.gatewayPk, d, now, p⟩] ∧
      (handleDeviceData st now d p bf).1.gateways = st.gateways) ∧
    (∀ gv gw, findDevice st d = none → payloadGet p "gateway_id" = some gv →
      gv.truthy = true → findGateway st gv.asKey = some gw →
      (handleDeviceData st now d p bf).2 = .ok bf ∧
      (∃ dv, getDevice (handleDeviceData st now d p bf).1 gw.pk d = some dv ∧
        dv.is_online = true ∧ dv.last_telemetry = some now) ∧
      (∀ gw0, findGatewayPk st gw.pk = some gw0 →
        findGatewayPk (handleDeviceData st now d p bf).1 gw.pk =
          some { gw0 with last_seen := some now })) := by
  constructor
  · intro dev h
    obtain ⟨X, hok, hgwX, htelX, hgetX, -⟩ := dataRest_spec st now d p dev h
    have hD : handleDeviceData st now d p bf = (X, .ok bf) := by
      simp only [handleDeviceData, handleDeviceDataCore, h, hok bf]
    rw [hD]
    exact ⟨rfl, hgetX, htelX, hgwX⟩
  · intro gv gw h0 hg htr hfg
    have hfind1 : findDevice
        (gatewayUpdateLastSeen { st with devices := st.devices ++ [autoCreateDevice gw d p] }
          gw.pk now) d = some (autoCreateDevice gw d p) :=
      (findDevice_append st d (autoCreateDevice gw d p) h0 rfl).1
    obtain ⟨X, hok, hgwX, htelX, hgetX, -⟩ :=
      dataRest_spec _ now d p (autoCreateDevice gw d p) hfind1
    have hD : handleDeviceData st now d p bf = (X, .ok bf) := by
      simp only [handleDeviceData, handleDeviceDataCore, h0, hg, htr, if_true, hfg, hok bf]
    rw [hD]
    refine ⟨rfl, hgetX, ?_⟩
    intro gw0 hgw0
    have hup : findGatewayPk
        (gatewayUpdateLastSeen { st with devices := st.devices ++ [autoCreateDevice gw d p] }
          gw.pk now) gw.pk = some { gw0 with last_seen := some now } :=
      findGatewayPk_update { st with devices := st.devices ++ [autoCreateDevice gw d p] }
        gw.pk now gw0 hgw0
    show X.gateways.find? (fun g => g.pk == gw.pk) = some { gw0 with last_seen := some now }
    rw [hgwX]
    exact hup

/-- C3 witness: both branches at concrete states. -/
theorem data_event_liveness_witness :
    ((handleDeviceData wSt1 10 "d1" [] false).2 = .ok false ∧
      (∃ dv, getDevice (handleDeviceData wSt1 10 "d1" [] false).1 1 "d1" = some dv ∧
        dv.is_online = true ∧ dv.last_telemetry = some 10)) ∧
    ((handleDeviceData wSt0 10 "d1" wHb false).2 = .ok false ∧
      findGatewayPk (handleDeviceData wSt0 10 "d1" wHb false).1 1 =
        some { wGw with last_seen := some 10 }) := by
  have h1 := (data_event_liveness wSt1 10 "d1" [] false).1 wDev (by decide)
  have h2 := (data_event_liveness wSt0 10 "d1" wHb false).2 (.vStr "gw-1") wGw
    (by decide) (by decide) (by decide) (by decide)
  exact ⟨⟨h1.1, h1.2.1⟩, ⟨h2.1, h2.2.2 wGw (by decide)⟩⟩

/-- C8: the fan-out try/except means a broadcast failure produces the
same persisted state as a successful broadcast — the telemetry row
stays stored and the device stays online. -/
theorem fanout_failure_no_rollback (st : St) (now : Nat) (d : String) (p : Payload) :
    (handleDeviceData st now d p true).1 = (handleDeviceData st now d p false).1 ∧
    (∀ dev, findDevice st d = some dev →
      (handleDeviceData st now d p true).2 = .ok true ∧
      (handleDeviceData st now d p true).1.telemetry =
        st.telemetry ++ [⟨dev.gatewayPk, d, now, p⟩] ∧
      (∃ dv, getDevice (handleDeviceData st now d p true).1 dev.gatewayPk d = some dv ∧
        dv.is_online = true)) := by
  constructor
  · cases hfd : findDevice st d with
    | some dev =>
        obtain ⟨X, hok, -, -, -, -⟩ := dataRest_spec st now d p dev hfd
        simp only [handleDeviceData, handleDeviceDataCore, hfd, hok]
    | none =>
        cases hg : payloadGet p "gateway_id" with
        | none => simp only [handleDeviceData, handleDeviceDataCore, hfd, hg]
        | some gv =>
            cases htr : gv.truthy with
            | false =>
                simp only [handleDeviceData, handleDeviceDataCore, hfd, hg, htr,
                  Bool.false_eq_true, if_false]
            | true =>
                cases hfg : findGateway st gv.asKey with
                | none =>
                    simp only [handleDeviceData, handleDeviceDataCore, hfd, hg, htr,
                      if_true, hfg]
                | some gw =>
                    have hfind1 : findDevice
                        (gatewayUpdateLastSeen
                          { st with devices := st.devices ++ [autoCreateDevice gw d p] }
                          gw.pk now) d = some (autoCreateDevice gw d p) :=
                      (findDevice_append st d (autoCreateDevice gw d p) hfd rfl).1
                    obtain ⟨X, hok, -, -, -, -⟩ :=
                      dataRest_spec _ now d p (autoCreateDevice gw d p) hfind1
                    simp only [handleDeviceData, handleDeviceDataCore, hfd, hg, htr,
                      if_true, hfg, hok]
  · intro dev h
    obtain ⟨X, hok, hgwX, htelX, hgetX, -⟩ := dataRest_spec st now d p dev h
    have hD : handleDeviceData st now d p true = (X, .ok true) := by
      simp only [handleDeviceData, handleDeviceDataCore, h, hok true]
    rw [hD]
    obtain ⟨dv, hdv, hon, -⟩ := hgetX
    exact ⟨rfl, htelX, ⟨dv, hdv, hon⟩⟩

/-- C8 witness. -/
theorem fanout_failure_no_rollback_witness :
    (handleDeviceData wSt1 10 "d1" [] true).1 = (handleDeviceData wSt1 10 "d1" [] false).1 ∧
    (handleDeviceData wSt1 10 "d1" [] true).2 = .ok true ∧
    (handleDeviceData wSt1 10 "d1" [] true).1.telemetry =
      wSt1.telemetry ++ [⟨1, "d1", 10, []⟩] := by
  have h := fanout_failure_no_rollback wSt1 10 "d1" []
  have h2 := h.2 wDev (by decide)
  exact ⟨h.1, h2.1, h2.2.1⟩

/-! ## Telemetry query lemmas -/

theorem mem_insertDesc (r a : TelemetryRec) (l : List TelemetryRec) :
    a ∈ insertDesc r l ↔ a = r ∨ a ∈ l := by
  induction l with
  | nil => simp [insertDesc]
  | cons x xs ih =>
      by_cases h : r.timestamp ≤ x.timestamp
      · simp only [insertDesc, if_pos h, List.mem_cons, ih]
        tauto
      · simp only [insertDesc, if_neg h, List.mem_cons]

theorem mem_sortDesc (a : TelemetryRec) (l : List TelemetryRec) :
    a ∈ sortDesc l ↔ a ∈ l := by
  induction l with
  | nil => simp [sortDesc]
  | cons x xs ih => simp [sortDesc, mem_insertDesc, ih]

theorem pairwise_insertDesc (r : TelemetryRec) (l : List TelemetryRec)
    (h : l.Pairwise (fun a b => b.timestamp ≤ a.timestamp)) :
    (insertDesc r l).Pairwise (fun a b => b.timestamp ≤ a.timestamp) := by
  induction l with
  | nil => simp [insertDesc]
  | cons x xs ih =>
      rcases List.pairwise_cons.mp h with ⟨hx, hxs⟩
      by_cases hle : r.timestamp ≤ x.timestamp
      · simp only [insertDesc, if_pos hle]
        refine List.pairwise_cons.mpr ⟨?_, ih hxs⟩
        intro b hb
        rcases (mem_insertDesc r b xs).mp hb with rfl | hbxs
        · exact hle
        · exact hx b hbxs
      · simp only [insertDesc, if_neg hle]
        have hxr : x.timestamp ≤ r.timestamp := le_of_not_le hle
        refine List.pairwise_cons.mpr ⟨?_, h⟩
        intro b hb
        rcases List.mem_cons.mp hb with rfl | hbxs
        · exact hxr
        · exact le_trans (hx b hbxs) hxr

theorem pairwise_sortDesc (l : List TelemetryRec) :
    (sortDesc l).Pairwise (fun a b => b.timestamp ≤ a.timestamp) := by
  induction l with
  | nil => simp [sortDesc]
  | cons x xs ih =>
      simp only [sortDesc]
      exact pairwise_insertDesc x (sortDesc xs) ih

/-- C2 counterexample: with `until = 5`, the query returns a record
whose timestamp equals the bound — the `until` filter is
`timestamp__lte`, i.e. inclusive, so the returned set is not
`since <= timestamp < until`. -/
theorem telemetry_until_inclusive_counterexample :
    wRec ∈ telemetryQuery [wRec] (some 0) (some 5) none ∧ ¬ (wRec.timestamp < 5) := by
  decide

/-- C2 amended: with both bounds given the returned records are exactly
those with `since <= timestamp <= until` (both bounds inclusive), a
positive `limit` truncates only after the newest-first ordering, and
the output is newest-first. -/
theorem telemetry_query_bounds (rows : List TelemetryRec) (s u : Nat) (l : Int)
    (hl : 0 < l) :
    (∀ r, r ∈ telemetryQuery rows (some s) (some u) none ↔
      r ∈ rows ∧ s ≤ r.timestamp ∧ r.timestamp ≤ u) ∧
    telemetryQuery rows (some s) (some u) (some l) =
      (telemetryQuery rows (some s) (some u) none).take l.toNat ∧
    (telemetryQuery rows (some s) (some u) (some l)).Pairwise
      (fun a b => b.timestamp ≤ a.timestamp) := by
  refine ⟨?_, ?_, ?_⟩
  · intro r
    simp only [telemetryQuery, List.mem_filter, mem_sortDesc, decide_eq_true_eq]
    tauto
  · simp only [telemetryQuery]
    rw [if_pos hl]
  · simp only [telemetryQuery]
    rw [if_pos hl]
    exact ((List.Pairwise.filter _ ((List.Pairwise.filter _ (pairwise_sortDesc rows)))).sublist
      (List.take_sublist _ _))

/-- C2 witness. -/
theorem telemetry_query_bounds_witness :
    (wRec ∈ telemetryQuery [wRec] (some 0) (some 5) none ↔
      wRec ∈ [wRec] ∧ 0 ≤ wRec.timestamp ∧ wRec.timestamp ≤ 5) ∧
    telemetryQuery [wRec] (some 0) (some 5) (some 1) =
      (telemetryQuery [wRec] (some 0) (some 5) none).take 1 :=
  ⟨(telemetry_query_bounds [wRec] 0 5 1 (by decide)).1 wRec,
   (telemetry_query_bounds [wRec] 0 5 1 (by decide)).2.1⟩


/-! ## Command validation lemmas -/

theorem stateAllowed_iff (v : Value) :
    stateAllowed v = true ↔
      ((∃ b, v = .vBool b) ∨ v = .vStr "on" ∨ v = .vStr "off" ∨
        v = .vInt 1 ∨ v = .vInt 0) := by
  cases v with
  | vStr s =>
      simp only [stateAllowed, List.any_cons, List.any_nil, Value.pyEq, Bool.or_false,
        Bool.false_or, Bool.or_eq_true, beq_iff_eq, Value.vStr.injEq, Value.vBool.injEq]
      constructor
      · rintro (rfl | rfl)
        · exact Or.inr (Or.inl rfl)
        · exact Or.inr (Or.inr (Or.inl rfl))
      · rintro (⟨b, hb⟩ | rfl | rfl | h | h) <;> simp_all
  | vInt n =>
      simp only [stateAllowed, List.any_cons, List.any_nil, Value.pyEq, Bool.or_false,
        Bool.false_or, Bool.or_eq_true, beq_iff_eq, Value.vInt.injEq, Value.vBool.injEq]
      constructor
      · rintro h
        rcases h with h | h | h | h <;> simp_all <;> omega
      · rintro (⟨b, hb⟩ | h | h | rfl | rfl) <;> simp_all
  | vBool b =>
      simp only [stateAllowed, List.any_cons, List.any_nil, Value.pyEq, Bool.or_false,
        Bool.false_or, Bool.or_eq_true, beq_iff_eq]
      constructor
      · intro _; exact Or.inl ⟨b, rfl⟩
      · intro _; cases b <;> simp

/-- C4: command validation boundary.  For relay/switch toggle: absent
`state` is rejected with a structured error naming the field,
`state="on"` accepted, and exactly booleans, "on"/"off" and the
numbers 1/0 are accepted.  For dimmer `set_brightness`: 101 and -1
rejected, 100 accepted, and exactly the inclusive range [0, 100]
passes.  A validation failure yields the error response and no MQTT
publish. -/
theorem command_validation_boundary (dt : String) (p pd : Payload)
    (hdt : dt = "relay" ∨ dt = "switch") :
    (payloadGet p "state" = none →
      validateCommand dt "toggle" p = some "State required for toggle command") ∧
    validateCommand dt "toggle" (("state", .vStr "on") :: pd) = none ∧
    (∀ v, validateCommand dt "toggle" [("state", v)] = none ↔
      ((∃ b, v = .vBool b) ∨ v = .vStr "on" ∨ v = .vStr "off" ∨
        v = .vInt 1 ∨ v = .vInt 0)) ∧
    validateCommand "dimmer" "set_brightness" (("brightness", .vInt 101) :: pd) =
      some "Brightness must be between 0-100" ∧
    validateCommand "dimmer" "set_brightness" (("brightness", .vInt (-1)) :: pd) =
      some "Brightness must be between 0-100" ∧
    validateCommand "dimmer" "set_brightness" (("brightness", .vInt 100) :: pd) = none ∧
    (∀ n : Int, validateCommand "dimmer" "set_brightness" [("brightness", .vInt n)] = none ↔
      0 ≤ n ∧ n ≤ 100) ∧
    (∀ (dev : Device) (q : Payload) (avail : Bool) (err : String),
      canReceiveCommands dev.type = true →
      validateCommand dev.type (payloadGetD q "action" "unknown") q = some err →
      commandEndpoint dev q avail = (.validationError err, false)) := by
  have hcond : ((dt == "relay" || dt == "switch") && ("toggle" == "toggle")) = true := by
    rcases hdt with rfl | rfl <;> decide
  refine ⟨?_, ?_, ?_, ?_, ?_, ?_, ?_, ?_⟩
  · intro h
    unfold validateCommand
    rw [if_pos hcond, h]
  · have hget : payloadGet (("state", Value.vStr "on") :: pd) "state" =
        some (.vStr "on") := by simp [payloadGet]
    unfold validateCommand
    rw [if_pos hcond, hget]
    dsimp only
    rw [if_pos (by decide : stateAllowed (.vStr "on") = true)]
  · intro v
    have hget : payloadGet [("state", v)] "state" = some v := by simp [payloadGet]
    unfold validateCommand
    rw [if_pos hcond, hget]
    dsimp only
    by_cases hs : stateAllowed v = true
    · rw [if_pos hs]
      simp only [true_iff]
      exact (stateAllowed_iff v).mp hs
    · rw [if_neg hs]
      simp only [reduceCtorEq, false_iff]
      intro hc
      exact hs ((stateAllowed_iff v).mpr hc)
  · have hget : payloadGet (("brightness", Value.vInt 101) :: pd) "brightness" =
        some (.vInt 101) := by simp [payloadGet]
    unfold validateCommand
    rw [if_neg (by decide), if_pos (by decide), hget]
    dsimp only [Option.getD, Value.toNumber]
    rw [if_neg (by decide)]
  · have hget : payloadGet (("brightness", Value.vInt (-1)) :: pd) "brightness" =
        some (.vInt (-1)) := by simp [payloadGet]
    unfold validateCommand
    rw [if_neg (by decide), if_pos (by decide), hget]
    dsimp only [Option.getD, Value.toNumber]
    rw [if_neg (by decide)]
  · have hget : payloadGet (("brightness", Value.vInt 100) :: pd) "brightness" =
        some (.vInt 100) := by simp [payloadGet]
    unfold validateCommand
    rw [if_neg (by decide), if_pos (by decide), hget]
    dsimp only [Option.getD, Value.toNumber]
    rw [if_pos (by decide)]
  · intro n
    have hget : payloadGet [("brightness", Value.vInt n)] "brightness" =
        some (.vInt n) := by simp [payloadGet]
    unfold validateCommand
    rw [if_neg (by decide), if_pos (by decide), hget]
    dsimp only [Option.getD, Value.toNumber]
    rcases Decidable.em (0 ≤ n ∧ n ≤ 100) with hy | hn
    · rw [if_pos (by simp [hy.1, hy.2])]
      simp [hy]
    · rw [if_neg (by simpa [Bool.and_eq_true, decide_eq_true_eq] using hn)]
      simp [hn]
  · intro dev q avail err hcan hval
    simp only [commandEndpoint, hcan, Bool.not_true, Bool.false_eq_true, if_false, hval]

/-- C4 witness. -/
theorem command_validation_boundary_witness :
    validateCommand "relay" "toggle" [] = some "State required for toggle command" ∧
    validateCommand "relay" "toggle" [("state", .vStr "on")] = none ∧
    validateCommand "dimmer" "set_brightness" [("brightness", .vInt 101)] =
      some "Brightness must be between 0-100" ∧
    validateCommand "dimmer" "set_brightness" [("brightness", .vInt 100)] = none := by
  have h := command_validation_boundary "relay" [] [] (Or.inl rfl)
  exact ⟨h.1 (by decide), h.2.1, h.2.2.2.1, h.2.2.2.2.2.1⟩

/-- C6: claiming a gateway already owned by another user yields a
conflict and changes nothing — owner and name stay as they were. -/
theorem claim_conflict (st : St) (userB : Nat) (gid name : String) (gw : Gateway)
    (hne : (gid == "") = false) (hlen0 : ((strip gid).length == 0) = false)
    (hlen : ¬ gid.length > 64)
    (hfind : findGateway st (strip gid) = some gw) (howner : gw.ownerId ≠ userB) :
    claimGateway st userB (some gid) name = (st, .conflict) := by
  unfold claimGateway
  dsimp only
  rw [if_neg (by simp [hne]), if_neg (by simp [hlen0, hlen]), hfind]
  dsimp only
  simp only [ne_eq, howner, not_false_eq_true, if_true]

/-- C6 witness. -/
theorem claim_conflict_witness :
    claimGateway wSt0 9 (some "gw-1") "x" = (wSt0, .conflict) :=
  claim_conflict wSt0 9 "gw-1" "x" wGw (by decide) (by decide) (by decide)
    (by decide) (by decide)

/-! ## Backoff lemmas -/

theorem waitTime_mono (n m : Nat) (h : n ≤ m) : waitTime n ≤ waitTime m := by
  unfold waitTime
  exact min_le_min (by omega) le_rfl

theorem waitTime_le_30 (n : Nat) : waitTime n ≤ 30 :=
  min_le_right _ _

theorem startGo_attempts_le (succ : Nat → Bool) :
    ∀ fuel a, (startGo succ fuel a).attempts ≤ a + fuel := by
  intro fuel
  induction fuel with
  | zero => intro a; simp [startGo]
  | succ f ih =>
      intro a
      simp only [startGo]
      by_cases hs : succ (a + 1) = true
      · rw [if_pos hs]
        show a + 1 ≤ a + (f + 1)
        omega
      · rw [if_neg hs]
        by_cases hlt : a + 1 < maxConnectionAttempts
        · rw [if_pos hlt]
          show (startGo succ f (a + 1)).attempts ≤ a + (f + 1)
          have := ih (a + 1)
          omega
        · rw [if_neg hlt]
          show a + 1 ≤ a + (f + 1)
          omega

theorem startGo_allfail (succ : Nat → Bool) (hf : ∀ n, succ n = false) :
    ∀ fuel a, 0 < fuel → a + fuel ≤ maxConnectionAttempts →
      (startGo succ fuel a).attempts = a + fuel ∧
      (startGo succ fuel a).connected = false := by
  intro fuel
  induction fuel with
  | zero => intro a h; omega
  | succ f ih =>
      intro a _ hle
      simp only [startGo, hf (a + 1), Bool.false_eq_true, if_false]
      by_cases hlt : a + 1 < maxConnectionAttempts
      · rw [if_pos hlt]
        rcases Nat.eq_zero_or_pos f with hf0 | hfpos
        · subst hf0
          simp [startGo]
        · have := ih (a + 1) hfpos (by omega)
          constructor
          · show (startGo succ f (a + 1)).attempts = a + (f + 1)
            omega
          · show (startGo succ f (a + 1)).connected = false
            exact this.2
      · rw [if_neg hlt]
        constructor
        · show a + 1 = a + (f + 1)
          omega
        · rfl

theorem startGo_waits (succ : Nat → Bool) :
    ∀ fuel a, List.Chain' (· ≤ ·) ((startGo succ fuel a).waits) ∧
      (∀ w ∈ (startGo succ fuel a).waits, waitTime (a + 1) ≤ w ∧ w ≤ 30) := by
  intro fuel
  induction fuel with
  | zero => intro a; simp [startGo]
  | succ f ih =>
      intro a
      simp only [startGo]
      by_cases hs : succ (a + 1) = true
      · rw [if_pos hs]; simp
      · rw [if_neg hs]
        by_cases hlt : a + 1 < maxConnectionAttempts
        · rw [if_pos hlt]
          obtain ihc := (ih (a + 1)).1
          have ihw := (ih (a + 1)).2
          constructor
          · show List.Chain' (· ≤ ·) (waitTime (a + 1) :: (startGo succ f (a + 1)).waits)
            rw [List.chain'_cons']
            refine ⟨?_, ihc⟩
            intro b hb
            have hbmem : b ∈ (startGo succ f (a + 1)).waits := List.mem_of_mem_head? hb
            exact le_trans (waitTime_mono (a + 1) (a + 1 + 1) (by omega)) (ihw b hbmem).1
          · show ∀ w ∈ waitTime (a + 1) :: (startGo succ f (a + 1)).waits, _ ∧ _
            intro w hw
            rcases List.mem_cons.mp hw with rfl | hwmem
            · exact ⟨le_refl _, waitTime_le_30 _⟩
            · exact ⟨le_trans (waitTime_mono (a + 1) (a + 1 + 1) (by omega)) (ihw w hwmem).1,
                (ihw w hwmem).2⟩
        · rw [if_neg hlt]; simp

/-- C7: the wait before the (N+1)th attempt, `min(5*N, 30)`, is
non-decreasing in N and capped at 30; the realized sleep sequence of
any run is non-decreasing and capped; no run makes more than 5
attempts; and when every attempt fails the loop stops at exactly 5
attempts with the bridge reporting `_connected = False`. -/
theorem reconnect_backoff (succ : Nat → Bool) (N M : Nat) (h1 : 1 ≤ N) (hNM : N ≤ M) :
    waitTime N ≤ waitTime M ∧ waitTime N ≤ 30 ∧
    (start succ).attempts ≤ maxConnectionAttempts ∧
    List.Chain' (· ≤ ·) (start succ).waits ∧
    (∀ w ∈ (start succ).waits, w ≤ 30) ∧
    ((∀ n, succ n = false) →
      (start succ).attempts = maxConnectionAttempts ∧ (start succ).connected = false) := by
  refine ⟨waitTime_mono N M hNM, waitTime_le_30 N, ?_, ?_, ?_, ?_⟩
  · have := startGo_attempts_le succ maxConnectionAttempts 0
    simpa [start] using this
  · exact (startGo_waits succ maxConnectionAttempts 0).1
  · intro w hw
    exact ((startGo_waits succ maxConnectionAttempts 0).2 w hw).2
  · intro hf
    have := startGo_allfail succ hf maxConnectionAttempts 0 (by decide) (by omega)
    simpa [start] using this

/-- C7 witness. -/
theorem reconnect_backoff_witness :
    waitTime 1 ≤ waitTime 2 ∧
    (start (fun _ => false)).attempts = maxConnectionAttempts ∧
    (start (fun _ => false)).connected = false := by
  have h := reconnect_backoff (fun _ => false) 1 2 (by decide) (by decide)
  have h2 := h.2.2.2.2.2 (fun _ => rfl)
  exact ⟨h.1, h2.1, h2.2⟩


/-- C9: message routing.  A topic with fewer than three `/`-segments
is dropped with no state change (as a warning, or as the debug ack
when it is a debug topic); `debug/`-prefixed topics are acknowledged
untouched; `devices/...` and `gateways/...` topics with enough
segments dispatch to the device and gateway handlers; any other
prefix changes nothing; and the delivery loop yields exactly one
outcome per message no matter how malformed any of them are. -/
theorem message_routing (st : St) (now : Nat) (p : Payload) (bf : Bool) :
    (∀ topic, (topicSplit topic).length < 3 →
      (onMessage st now topic p bf).1 = st ∧
      ((onMessage st now topic p bf).2 = .invalidTopic ∨
        (onMessage st now topic p bf).2 = .debugAck)) ∧
    (∀ topic, topicStartsWith topic "debug/" = true →
      onMessage st now topic p bf = (st, .debugAck)) ∧
    (∀ topic, topicStartsWith topic "debug/" = false →
      topicStartsWith topic "devices/" = true → ¬ (topicSplit topic).length < 3 →
      onMessage st now topic p bf = handleDeviceMessage st now (topicSplit topic) p bf) ∧
    (∀ topic, topicStartsWith topic "debug/" = false →
      topicStartsWith topic "devices/" = false →
      topicStartsWith topic "gateways/" = true → ¬ (topicSplit topic).length < 3 →
      onMessage st now topic p bf = handleGatewayMessage st now (topicSplit topic)) ∧
    (∀ topic, topicStartsWith topic "debug/" = false →
      topicStartsWith topic "devices/" = false →
      topicStartsWith topic "gateways/" = false →
      (onMessage st now topic p bf).1 = st) ∧
    (∀ msgs : List Msg, (processMessages st msgs).2.length = msgs.length) := by
  refine ⟨?_, ?_, ?_, ?_, ?_, ?_⟩
  · intro topic hlen
    unfold onMessage
    by_cases hdeb : topicStartsWith topic "debug/" = true
    · rw [if_pos hdeb]
      exact ⟨rfl, Or.inr rfl⟩
    · rw [if_neg hdeb]
      dsimp only
      rw [if_pos hlen]
      exact ⟨rfl, Or.inl rfl⟩
  · intro topic hdeb
    unfold onMessage
    rw [if_pos hdeb]
  · intro topic hdeb hdev hlen
    unfold onMessage
    rw [if_neg (by simp [hdeb]), if_neg hlen, if_pos hdev]
  · intro topic hdeb hdev hgw hlen
    unfold onMessage
    rw [if_neg (by simp [hdeb]), if_neg hlen, if_neg (by simp [hdev]), if_pos hgw]
  · intro topic hdeb hdev hgw
    unfold onMessage
    rw [if_neg (by simp [hdeb])]
    dsimp only
    by_cases hlen : (topicSplit topic).length < 3
    · rw [if_pos hlen]
    · rw [if_neg hlen, if_neg (by simp [hdev]), if_neg (by simp [hgw])]
  · intro msgs
    induction msgs generalizing st with
    | nil => rfl
    | cons m rest ih =>
        unfold processMessages
        dsimp only
        rw [List.length_cons, ih, List.length_cons]

/-- C9 witness: the concrete routing table. -/
theorem message_routing_witness :
    ((onMessage wSt0 5 "ab/cd" [] false).1 = wSt0 ∧
      (onMessage wSt0 5 "ab/cd" [] false).2 = .invalidTopic) ∧
    onMessage wSt0 5 "debug/test" [] false = (wSt0, .debugAck) ∧
    onMessage wSt0 5 "devices/d1/heartbeat" wHb false =
      handleDeviceMessage wSt0 5 (topicSplit "devices/d1/heartbeat") wHb false ∧
    onMessage wSt0 5 "gateways/gw-1/status" [] false =
      handleGatewayMessage wSt0 5 (topicSplit "gateways/gw-1/status") ∧
    (onMessage wSt0 5 "foo/bar/baz" [] false).1 = wSt0 ∧
    (processMessages wSt0 [⟨5, "debug/test", [], false⟩, ⟨6, "ab/cd", [], true⟩]).2.length = 2 := by
  have h := message_routing wSt0 5 [] false
  have hHb := message_routing wSt0 5 wHb false
  have h1 := h.1 "ab/cd" (by decide)
  refine ⟨⟨h1.1, ?_⟩, h.2.1 "debug/test" (by decide),
    hHb.2.2.1 "devices/d1/heartbeat" (by decide) (by decide) (by decide),
    h.2.2.2.1 "gateways/gw-1/status" (by decide) (by decide) (by decide) (by decide),
    h.2.2.2.2.1 "foo/bar/baz" (by decide) (by decide) (by decide),
    h.2.2.2.2.2 [⟨5, "debug/test", [], false⟩, ⟨6, "ab/cd", [], true⟩]⟩
  rcases h1.2 with h2 | h2
  · exact h2
  · exact absurd h2 (by decide)

end AIoT
